import Mathlib

/-!
Verification of the Iqra conversion server (`src/conversion-server/main.py`)
against its natural-language specification.

The Python source is shallowly embedded: pure request/response logic becomes
Lean functions over explicit state; the per-job storage lifecycle and the
counting semaphores become small step-relations driven by event lists (any
interleaving of the concurrent actors is an event list).  Python `None` is
`Option.none`; a JSON object parsed by `json.loads` is abstracted to the
record of the four fields the code reads, each `Option (Option _)` (outer:
key present in the object, inner: value non-null).  Strings are code-point
sequences, matching Python `str` slicing.
-/

namespace Iqra

/-- Constants from the top of `main.py` (env-overridable ones at their
documented defaults). -/
def CHUNK_SIZE : Nat := 8192

def MAX_FILENAME_LENGTH : Nat := 200

def JOB_EXPIRY_MINUTES : Nat := 30

def METADATA_TIMEOUT_SECONDS : Nat := 90

def CONVERSION_TIMEOUT_SECONDS : Nat := 1800

def MAX_METADATA_CONCURRENCY : Nat := 2

def MAX_CONVERSION_CONCURRENCY : Nat := 1

def CLEANUP_INTERVAL_SECONDS : Nat := 300

/-- `class JobStatus(str, Enum)`. -/
inductive JobStatus where
  | pending
  | processing
  | completed
  | failed
deriving DecidableEq, Repr

/-- The string value of a `JobStatus` member. -/
def JobStatus.val : JobStatus → String
  | .pending => "pending"
  | .processing => "processing"
  | .completed => "completed"
  | .failed => "failed"

/-- A terminal status admits no further transition (`completed`/`failed`). -/
def JobStatus.isTerminal : JobStatus → Bool
  | .completed => true
  | .failed => true
  | _ => false

/-- The dict stored in `jobs[job_id]` (lines 387-401).  Python `None` becomes
`Option.none`; `created_at` is a timestamp in minutes (only differences
against `JOB_EXPIRY_MINUTES` matter). -/
structure Job where
  id : String
  url : String
  quality : String
  status : JobStatus
  progress : String
  created_at : Nat
  title : Option String
  artist : Option String
  duration : Option Int
  output_path : Option String
  output_dir : Option String
  file_size : Option Nat
  error : Option String
deriving DecidableEq, Repr

/-- The four fields `run_conversion` reads from the JSON object produced by
`json.loads` on the last stdout line.  Outer `Option`: the key is present;
inner `Option`: the value is not JSON `null`. -/
structure JsonInfo where
  title : Option (Option String)
  uploader : Option (Option String)
  channel : Option (Option String)
  duration : Option (Option Int)
deriving DecidableEq, Repr

/-- Python `info.get(key, default)` for a string-valued key: the stored value
(possibly `None`) when the key is present, otherwise the default. -/
def pyGetStr : Option (Option String) → String → Option String
  | none, d => some d
  | some v, _ => v

/-- Python `info.get(key, default)` for an integer-valued key. -/
def pyGetInt : Option (Option Int) → Int → Option Int
  | none, d => some d
  | some v, _ => v

/-- Python `info.get(key)` with no default: `None` when absent or null. -/
def pyGetOpt : Option (Option String) → Option String
  | none => none
  | some v => v

/-- Python truthiness of a string-or-None value: `None` and `""` are falsy. -/
def pyTruthy : Option String → Bool
  | none => false
  | some s => !s.isEmpty

/-- Python `a or b` on string-or-None values. -/
def pyOrStr (a b : Option String) : Option String :=
  if pyTruthy a then a else b

/-- Characters replaced by `sanitize_filename` (line 179). -/
def invalid_chars : List Char := ['/', '\\', ':', '*', '?', '"', '<', '>', '|']

/-- One `filename.replace(char, '_')` call: replacing every occurrence of a
single character by `'_'` is a characterwise map. -/
def replaceChar (s : List Char) (c : Char) : List Char :=
  s.map fun x => if x = c then '_' else x

/-- `sanitize_filename` (lines 178-182): replace each unsafe character with
an underscore, then truncate to `MAX_FILENAME_LENGTH` code points
(Python `[:200]` slices code points). -/
def sanitize_filename (filename : String) : String :=
  String.mk ((invalid_chars.foldl replaceChar filename.data).take MAX_FILENAME_LENGTH)

/-- Word-or-dash character class `[\w-]` of the URL patterns (ASCII fragment
of Python `\w`). -/
def wordOrDash (c : Char) : Bool :=
  c.isAlphanum || c == '_' || c == '-'

/-- Consume a literal from the start of the input, as `re.match` does for a
literal regex fragment: the remainder on success. -/
def dropLit : List Char → List Char → Option (List Char)
  | [], s => some s
  | _ :: _, [] => none
  | l :: ls, c :: cs => if l = c then dropLit ls cs else none

/-- Remainders after the optional scheme group `(https?://)?`. -/
def schemeDrops (s : List Char) : List (List Char) :=
  [s] ++ (dropLit "http://".data s).toList ++ (dropLit "https://".data s).toList

/-- Remainders after the optional `(www\.)?` group (patterns 1-3 only). -/
def wwwDrops (allowWww : Bool) (s : List Char) : List (List Char) :=
  [s] ++ (if allowWww then (dropLit "www.".data s).toList else [])

/-- One pattern of `YOUTUBE_PATTERNS`, matched at the start of the string as
`re.match` does: optional scheme, optional `www.` (when the pattern has that
group), the literal host-and-path text, then at least one `[\w-]` character;
trailing text is ignored, as with an unanchored `re.match`. -/
def matchPattern (allowWww : Bool) (tail : String) (url : String) : Bool :=
  (schemeDrops url.data).any fun r1 =>
    (wwwDrops allowWww r1).any fun r2 =>
      match dropLit tail.data r2 with
      | some (c :: _) => wordOrDash c
      | _ => false

/-- `YOUTUBE_PATTERNS` (lines 163-168): flag = the pattern has the optional
`(www\.)?` group, string = the literal part after the optional groups. -/
def YOUTUBE_PATTERNS : List (Bool × String) :=
  [(true, "youtube.com/watch?v="),
   (true, "youtu.be/"),
   (true, "youtube.com/shorts/"),
   (false, "music.youtube.com/watch?v=")]

/-- `is_valid_youtube_url` (lines 171-175). -/
def is_valid_youtube_url (url : String) : Bool :=
  YOUTUBE_PATTERNS.any fun p => matchPattern p.1 p.2 url

/-! ## Subprocess Supervisor (`run_subprocess`, lines 84-121) -/

/-- Behaviour of one external process: how long it runs before exiting, and
what it then returns.  `run_subprocess` only observes whether the run fits
inside the timeout. -/
structure ProcBehavior where
  duration : Nat
  returncode : Int
  stdout : String
  stderr : String

/-- What `run_subprocess` hands back to its caller: the triple
`(returncode, stdout, stderr)`, or the re-raised `asyncio.TimeoutError`. -/
inductive SupOutcome where
  | ok (returncode : Int) (stdout stderr : String)
  | timedOut
deriving DecidableEq, Repr

/-- Result of one supervised run, with the side effects of the
`except asyncio.TimeoutError` handler: `process.kill()` and, when
`log_output` spawned the two background line readers inside the
`asyncio.gather`, their cancellation by `asyncio.wait_for`. -/
structure SupRun where
  outcome : SupOutcome
  processKilled : Bool
  readersCancelled : Bool
deriving DecidableEq, Repr

/-- `run_subprocess` (lines 84-121): if the process finishes within the
wall-clock timeout, return its exit triple; otherwise kill it (cancelling
the background readers in line-streaming mode) and propagate `TimedOut`. -/
def run_subprocess (beh : ProcBehavior) (timeout : Nat) (log_output : Bool) : SupRun :=
  if beh.duration ≤ timeout then
    { outcome := .ok beh.returncode beh.stdout beh.stderr
      processKilled := false
      readersCancelled := false }
  else
    { outcome := .timedOut
      processKilled := true
      readersCancelled := log_output }

/-! ## Job Runner (`run_conversion`, lines 291-368) -/

/-- Denotation of `json.loads` on the last stdout line, as `run_conversion`
observes it through the narrow `except (json.JSONDecodeError, IndexError)`
handler (line 344):
  * `obj info` — the line parsed to a JSON object; the three `.get` reads
    succeed (their results are in `info`).
  * `notJson` — `json.loads` raised `JSONDecodeError` (or the split raised
    `IndexError`): caught by the narrow handler, which substitutes the
    placeholder values.
  * `nonObject msg` — the line is valid JSON but not an object (`null`, a
    number, a string, an array): `json.loads` succeeds and then
    `info.get('title', 'Unknown')` at line 341 raises `AttributeError`
    (with `str(e) = msg`) before any assignment happens; the narrow handler
    does not catch it, so it lands in the generic `except Exception`
    (lines 365-368). -/
inductive ParseOutcome where
  | obj (info : JsonInfo)
  | notJson
  | nonObject (msg : String)
deriving DecidableEq, Repr

/-- The shared filesystem as the runner observes it.  `files` and `getsize`
are the scratch directory's contents at the output-location step (the
`os.path.exists` check / `os.listdir` scan, lines 349-353).  The directory
is shared mutable state: the Expiry Sweeper's `rmtree` can land in the
window between locating the output file and the `os.path.getsize` call at
line 360; `getsizeError = some msg` models that race (`getsize` raises
`FileNotFoundError` with `str(e) = msg`, handled by the generic
`except Exception`), `none` means the file was still there. -/
structure Fs where
  files : List String
  getsize : String → Nat
  getsizeError : Option String

/-- Output-file location (lines 349-357): prefer the expected `audio.mp3`;
otherwise the first directory entry ending in `.mp3`. -/
def findOutput (fs : Fs) : Option String :=
  if fs.files.contains "audio.mp3" then some "audio.mp3"
  else fs.files.find? fun f => f.endsWith ".mp3"

/-- The last line of the tool's stdout, as computed by
`stdout_text.strip().split('\n')[-1]` (line 340). -/
def lastStdoutLine (stdout : String) : String :=
  (stdout.trim.splitOn "\n").getLastD ""

/-- Lines 349-363 of `run_conversion`: locate the output file (Failed with
"No output file produced" when the scan finds nothing), record
`output_path` (line 359), then call `os.path.getsize` (line 360) — which
raises into the generic `except Exception` handler (lines 365-368, setting
Failed and `error = str(e)`) if the sweeper emptied the directory in the
race window — and otherwise record `file_size` and complete. -/
def finishConversion (job : Job) (tmpdir : String) (fs : Fs) : Job × Bool :=
  match findOutput fs with
  | none =>
    ({ job with status := .failed, error := some "No output file produced" }, true)
  | some f =>
    let job := { job with output_path := some (tmpdir ++ "/" ++ f) }
    match fs.getsizeError with
    | some msg => ({ job with status := .failed, error := some msg }, true)
    | none =>
      ({ job with
          file_size := some (fs.getsize f)
          status := .completed
          progress := "Complete" }, true)

/-- `run_conversion` (lines 291-368) for a job record that was found in the
store, from the point where the scratch directory `tmpdir` has been created.
`parseJson` is the denotation of `json.loads` on the last stdout line (see
`ParseOutcome`); `sup` is the outcome of `run_subprocess` under the
conversion semaphore; `fs` is the shared filesystem (see `Fs`).  Uncaught
exceptions inside the `try` — the `AttributeError` of a non-object JSON
line and the `FileNotFoundError` of the getsize race — are absorbed by the
generic `except Exception` handler (lines 365-368), which sets Failed and
`error = str(e)` on whatever the record holds at that point.  Returns the
final job record and whether the semaphore slot was released (the
`async with` releases it on every exit path of its block). -/
def run_conversion (parseJson : String → ParseOutcome) (job : Job) (tmpdir : String)
    (sup : SupOutcome) (fs : Fs) : Job × Bool :=
  let job := { job with
    status := .processing
    progress := "Downloading and converting..."
    output_dir := some tmpdir }
  match sup with
  | .timedOut =>
    ({ job with status := .failed, error := some "Conversion timed out" }, true)
  | .ok returncode stdout stderr =>
    if returncode ≠ 0 then
      ({ job with status := .failed,
                  error := some ("Conversion failed: " ++ stderr.take 200) }, true)
    else
      match parseJson (lastStdoutLine stdout) with
      | .nonObject msg =>
        ({ job with status := .failed, error := some msg }, true)
      | .obj info =>
        finishConversion
          { job with
            title := pyGetStr info.title "Unknown"
            artist := pyOrStr (pyOrStr (pyGetOpt info.uploader) (pyGetOpt info.channel))
              (some "Unknown")
            duration := pyGetInt info.duration 0 } tmpdir fs
      | .notJson =>
        finishConversion
          { job with title := some "Unknown", artist := some "Unknown"
                     duration := some 0 } tmpdir fs

/-! ## Job Store and HTTP endpoints -/

/-- The in-memory `jobs` dict, as an association list keyed by job id. -/
abbrev Store := List (String × Job)

/-- A raised `HTTPException`. -/
structure HttpError where
  status_code : Nat
  detail : String
deriving DecidableEq, Repr

/-- `cleanup_old_jobs` (lines 185-196), store part: drop every record whose
age exceeds `JOB_EXPIRY_MINUTES` (the directory removal accompanying each
drop is tracked by the resource-lifecycle system below). -/
def cleanup_old_jobs (store : Store) (now : Nat) : Store :=
  List.filter (fun p => !(now - p.2.created_at > JOB_EXPIRY_MINUTES)) store

/-- The quality enumeration of `create_job` (line 380). -/
def valid_qualities : List String := ["128", "192", "256", "320"]

/-- `create_job` (lines 371-409): reject an invalid URL synchronously with
400 before touching the store; coerce an out-of-range quality to `"128"`;
run the eager cleanup pass; insert the fresh record.  Returns the new store
and either the error or the new job id. -/
def create_job (store : Store) (newId : String) (now : Nat) (url quality : String) :
    Store × Except HttpError String :=
  if !is_valid_youtube_url url then
    (store, .error ⟨400, "Invalid YouTube URL"⟩)
  else
    let quality := if valid_qualities.contains quality then quality else "128"
    let store := cleanup_old_jobs store now
    let job : Job :=
      { id := newId, url := url, quality := quality, status := .pending
        progress := "Queued", created_at := now
        title := none, artist := none, duration := none
        output_path := none, output_dir := none, file_size := none, error := none }
    ((newId, job) :: store, .ok newId)

/-- The body of the status-polling response (lines 420-436): the extra
fields are included only in the corresponding terminal status (outer
`Option` = field present in the response, inner = the stored value). -/
structure StatusResp where
  job_id : String
  status : JobStatus
  progress : String
  title : Option (Option String)
  artist : Option (Option String)
  duration : Option (Option Int)
  file_size : Option (Option Nat)
  error : Option (Option String)
deriving DecidableEq, Repr

/-- `get_job_status` (lines 412-436). -/
def get_job_status (store : Store) (jobId : String) : Except HttpError StatusResp :=
  match List.lookup jobId store with
  | none => .error ⟨404, "Job not found"⟩
  | some job =>
    if job.status = .completed then
      .ok ⟨jobId, job.status, job.progress,
           some job.title, some job.artist, some job.duration, some job.file_size, none⟩
    else if job.status = .failed then
      .ok ⟨jobId, job.status, job.progress, none, none, none, none, some job.error⟩
    else
      .ok ⟨jobId, job.status, job.progress, none, none, none, none, none⟩

/-- An uppercase hexadecimal digit. -/
def hexUpper (n : Nat) : Char :=
  if n < 10 then Char.ofNat (48 + n) else Char.ofNat (55 + n)

/-- UTF-8 byte sequence of a code point (for `urllib.parse.quote`, which
percent-encodes the UTF-8 bytes of every non-safe character). -/
def utf8Bytes (n : Nat) : List Nat :=
  if n < 128 then [n]
  else if n < 2048 then [192 + n / 64, 128 + n % 64]
  else if n < 65536 then [224 + n / 4096, 128 + (n / 64) % 64, 128 + n % 64]
  else [240 + n / 262144, 128 + (n / 4096) % 64, 128 + (n / 64) % 64, 128 + n % 64]

/-- `urllib.parse.quote(s, safe='')`: every character outside ASCII
alphanumerics and `_.-~` is percent-encoded byte by byte. -/
def urlquote (s : String) : String :=
  String.join (s.data.map fun c =>
    if c.isAlphanum || c == '_' || c == '.' || c == '-' || c == '~' then
      String.singleton c
    else
      String.join ((utf8Bytes c.toNat).map fun b =>
        String.mk ['%', hexUpper (b / 16), hexUpper (b % 16)]))

/-- Python `str(x)` of an optional integer (`str(None)` is `"None"`). -/
def pyStrInt : Option Int → String
  | none => "None"
  | some n => toString n

/-- Python `str(x)` of an optional natural number. -/
def pyStrNat : Option Nat → String
  | none => "None"
  | some n => toString n

/-- The headers of the streaming download response (lines 468-479). -/
structure DownloadOk where
  content_length : String
  x_track_title : String
  x_track_artist : String
  x_track_duration : String
  content_disposition : String
deriving DecidableEq, Repr

/-- `download_job` (lines 439-479) up to the start of the stream.  The outer
`Option` is `none` exactly when the handler raises an uncaught Python
exception: `sanitize_filename` is applied to `job['title']` / `job['artist']`
(lines 455-456), which crashes with a `TypeError`-style failure when the
stored value is `None`.  `fileExists` is `os.path.exists`. -/
def download_job (store : Store) (jobId : String) (fileExists : String → Bool) :
    Option (Except HttpError DownloadOk) :=
  match List.lookup jobId store with
  | none => some (.error ⟨404, "Job not found"⟩)
  | some job =>
    if job.status ≠ .completed then
      some (.error ⟨400, "Job not ready for download. Status: " ++ job.status.val⟩)
    else
      match job.output_path with
      | none => some (.error ⟨404, "Output file not found"⟩)
      | some p =>
        if p = "" ∨ !fileExists p then
          some (.error ⟨404, "Output file not found"⟩)
        else
          match job.title, job.artist with
          | some t, some a =>
            let safe_title := urlquote (sanitize_filename t)
            let safe_artist := urlquote (sanitize_filename a)
            some (.ok
              { content_length := pyStrNat job.file_size
                x_track_title := safe_title
                x_track_artist := safe_artist
                x_track_duration := pyStrInt job.duration
                content_disposition :=
                  "attachment; filename=\"" ++ safe_title ++ ".mp3\"" })
          | _, _ => none

/-- `jobs.pop(job_id, None)` on the association-list store. -/
def popJob (store : Store) (jobId : String) : Store :=
  List.filter (fun p => !(p.1 == jobId)) store

/-- The `finally` block of `iter_file` (lines 463-466), store part: once the
stream ends (normally or by client disconnect) the job record is removed.
The accompanying `shutil.rmtree` of `output_dir` is tracked by the
resource-lifecycle system below. -/
def iter_file_cleanup (store : Store) (jobId : String) : Store :=
  popJob store jobId

/-! ## Resource lifecycle of one job's `output_dir`

The actors that touch one job's record and scratch directory — its Job
Runner, the Expiry Sweeper (periodic loop and the eager pass inside
`create_job`), and any download requests — interleave.  One interleaving is
a list of the events below; a step whose source-code guard does not hold is
a no-op (the actor observed a state in which its code does nothing).
`deletions` counts effective directory removals: `shutil.rmtree` calls that
found the directory present (`ignore_errors=True` makes a second call on an
already-removed path a no-op that deletes nothing). -/

/-- Lifecycle state of a single job after `create_job` inserted it. -/
structure ResState where
  inStore : Bool
  allocated : Bool
  dirExists : Bool
  completed : Bool
  streaming : Nat
  deletions : Nat
  created_at : Nat
deriving DecidableEq, Repr

/-- State right after `create_job`: record in store, no directory yet. -/
def resInit (c0 : Nat) : ResState :=
  { inStore := true, allocated := false, dirExists := false, completed := false
    streaming := 0, deletions := 0, created_at := c0 }

/-- Events touching one job's record and scratch directory. -/
inductive ResEv where
  | alloc
  | finishOk
  | sweep (now : Nat)
  | dlStart
  | dlFinish
deriving DecidableEq, Repr

/-- One interleaved step.
  * `alloc`: `run_conversion` found the record (line 292) and ran
    `tempfile.mkdtemp` + `job['output_dir'] = tmpdir` (lines 299-300) —
    at most once per job, since `create_job` schedules exactly one runner.
  * `finishOk`: the runner set `status = COMPLETED` (line 361) on the dict
    it captured (even if the record was already popped from the store).
  * `sweep now`: one `cleanup_old_jobs` pass at time `now` (lines 185-196):
    if the record is still in the store and `now - created_at >
    JOB_EXPIRY_MINUTES`, pop it and, if `output_dir` is set, `rmtree` it.
  * `dlStart`: `download_job` passed its checks (record present, status
    completed, output file on disk) and the stream began.
  * `dlFinish`: one stream's `finally` (lines 463-466): if `output_dir` is
    set, `rmtree` it; then pop the record. -/
def resStep (s : ResState) : ResEv → ResState
  | .alloc =>
    if s.inStore && !s.allocated then
      { s with allocated := true, dirExists := true }
    else s
  | .finishOk =>
    if s.allocated then { s with completed := true } else s
  | .sweep now =>
    if s.inStore && (now - s.created_at > JOB_EXPIRY_MINUTES) then
      if s.allocated then
        { s with inStore := false, dirExists := false
                 deletions := s.deletions + (if s.dirExists then 1 else 0) }
      else
        { s with inStore := false }
    else s
  | .dlStart =>
    if s.inStore && s.completed && s.allocated && s.dirExists then
      { s with streaming := s.streaming + 1 }
    else s
  | .dlFinish =>
    if 0 < s.streaming then
      if s.allocated then
        { s with inStore := false, dirExists := false
                 streaming := s.streaming - 1
                 deletions := s.deletions + (if s.dirExists then 1 else 0) }
      else
        { s with inStore := false, streaming := s.streaming - 1 }
    else s

/-- The state of one job after an interleaving of lifecycle events. -/
def resRun (c0 : Nat) (es : List ResEv) : ResState :=
  es.foldl resStep (resInit c0)

/-! ## Concurrency Gate (`asyncio.Semaphore`, lines 63-64) -/

/-- A counting semaphore's view: free slots and current holders. -/
structure GateState where
  avail : Nat
  holders : Nat
deriving DecidableEq, Repr

/-- Gate events: a task completes an `acquire` (it only resumes when a slot
is free), or a holder releases on exiting its `async with` block. -/
inductive GateEv where
  | acq
  | rel
deriving DecidableEq, Repr

/-- One gate step.  `asyncio.Semaphore.acquire` suspends while the counter
is zero, so an `acq` fires only with a slot free; `rel` models the balanced
release performed by `async with` (only a current holder releases). -/
def gateStep (s : GateState) : GateEv → GateState
  | .acq => if 0 < s.avail then { avail := s.avail - 1, holders := s.holders + 1 } else s
  | .rel => if 0 < s.holders then { avail := s.avail + 1, holders := s.holders - 1 } else s

/-- The gate after an interleaving of events, starting from `slots` free. -/
def gateRun (slots : Nat) (es : List GateEv) : GateState :=
  es.foldl gateStep { avail := slots, holders := 0 }

/-! ## Invariants and concrete fixtures -/

/-- Inductive invariant of the per-job resource lifecycle: before allocation
nothing exists and nothing was deleted; after allocation the directory is
either still present or has been effectively deleted exactly once; and once
the record has left the store the directory is gone. -/
def ResInv (s : ResState) : Prop :=
  (s.allocated = false → s.dirExists = false ∧ s.deletions = 0) ∧
  (s.allocated = true → s.deletions + s.dirExists.toNat = 1) ∧
  (s.allocated = true → s.inStore = false → s.dirExists = false)

/-- A job record exactly as `create_job` inserts it. -/
def job0 : Job :=
  { id := "j1", url := "https://www.youtube.com/watch?v=dQw4w9WgXcQ", quality := "128"
    status := .pending, progress := "Queued", created_at := 0
    title := none, artist := none, duration := none
    output_path := none, output_dir := none, file_size := none, error := none }

/-- A job record as it looks after a successful conversion. -/
def doneJob : Job :=
  { job0 with status := .completed, progress := "Complete"
              title := some "My Song", artist := some "My Artist"
              duration := some 100
              output_path := some "/d/audio.mp3", output_dir := some "/d"
              file_size := some 3 }

/-- A scratch directory in which the tool produced no file at all. -/
def fsEmpty : Fs := { files := [], getsize := fun _ => 0, getsizeError := none }

/-- A scratch directory holding the expected `audio.mp3`. -/
def fsWithAudio : Fs :=
  { files := ["audio.mp3"], getsize := fun _ => 3, getsizeError := none }

/-- A scratch directory holding `audio.mp3` at the location step, which the
Expiry Sweeper removes before the `os.path.getsize` call (the race window
between lines 349-353 and line 360). -/
def fsVanished : Fs :=
  { files := ["audio.mp3"], getsize := fun _ => 3
    getsizeError := some "No such file or directory: /d/audio.mp3" }

/-- A captured stderr longer than the 200-character truncation bound whose
final character `Z` appears nowhere in its first 200 characters. -/
def stderrLong : String := String.mk (List.replicate 200 'a' ++ ['Z'])

/-- A parsed metadata object whose `title` key is present but JSON `null`,
and whose `duration` is present and non-null. -/
def infoNullTitle : JsonInfo :=
  { title := some none, uploader := some (some "My Artist"), channel := none
    duration := some (some 212) }

/-! ## Helper lemmas -/

/-- Looking up a key just removed by `popJob` reports nothing. -/
theorem lookup_popJob (store : Store) (jobId : String) :
    List.lookup jobId (popJob store jobId) = none := by
  induction store with
  | nil => rfl
  | cons p t ih =>
    obtain ⟨k, v⟩ := p
    by_cases h : k = jobId
    · simpa [popJob, List.filter, h] using ih
    · have hb : (jobId == k) = false := beq_eq_false_iff_ne.mpr (Ne.symm h)
      have hb2 : (k == jobId) = false := beq_eq_false_iff_ne.mpr h
      simpa [popJob, List.filter, List.lookup, hb, hb2] using ih

/-- The gate's books always balance: free slots plus holders equals the
configured slot count. -/
theorem gate_balance (slots : Nat) (es : List GateEv) :
    (gateRun slots es).avail + (gateRun slots es).holders = slots := by
  suffices h : ∀ (es : List GateEv) (s : GateState),
      s.avail + s.holders = slots →
      (es.foldl gateStep s).avail + (es.foldl gateStep s).holders = slots by
    exact h es { avail := slots, holders := 0 } (by simp)
  intro es
  induction es with
  | nil => intro s hs; simpa using hs
  | cons e t ih =>
    intro s hs
    refine ih (gateStep s e) ?_
    cases e <;> simp only [gateStep] <;> split <;> (try simp) <;> omega

/-- One lifecycle step preserves the resource invariant. -/
theorem resInv_step (s : ResState) (e : ResEv) (h : ResInv s) : ResInv (resStep s e) := by
  obtain ⟨h1, h2, h3⟩ := h
  unfold ResInv
  cases e <;> simp only [resStep] <;> repeat' split
  all_goals
    refine ⟨?_, ?_, ?_⟩ <;> intros <;>
      cases ha : s.allocated <;> cases hd : s.dirExists <;> cases hi : s.inStore <;>
        first
          | (simp_all; omega)
          | simp_all

/-- The resource invariant holds in every reachable lifecycle state. -/
theorem resInv_run (c0 : Nat) (es : List ResEv) : ResInv (resRun c0 es) := by
  suffices h : ∀ (es : List ResEv) (s : ResState), ResInv s → ResInv (es.foldl resStep s) by
    refine h es (resInit c0) ?_
    refine ⟨fun _ => ⟨rfl, rfl⟩, ?_, ?_⟩ <;> intro hx <;> simp [resInit] at hx
  intro es
  induction es with
  | nil => intro s hs; exact hs
  | cons e t ih => intro s hs; exact ih (resStep s e) (resInv_step s e hs)

/-! ## Claims -/

/-- C1: for every job whose `output_dir` has been allocated, the directory
is deleted exactly once over the job's lifetime — by the Expiry Sweeper or
by the Delivery Endpoint's stream-`finally`, whichever fires first — never
effectively twice and never zero times, over every interleaving of the
actors.  Precisely: in every reachable state the count of effective
`shutil.rmtree` removals is at most one; it is exactly one once the record
has left the store (the end of the job's lifetime); and once the job is
older than the TTL, the very next sweeper pass brings the count to exactly
one (so the directory is never leaked).  A racing second `rmtree` runs with
`ignore_errors=True` on an already-removed path and deletes nothing. -/
theorem C1_output_dir_deleted_exactly_once (c0 : Nat) (es : List ResEv) :
    (resRun c0 es).deletions ≤ 1 ∧
    ((resRun c0 es).allocated = true → (resRun c0 es).inStore = false →
      (resRun c0 es).deletions = 1) ∧
    (∀ now, now - (resRun c0 es).created_at > JOB_EXPIRY_MINUTES →
      (resRun c0 es).allocated = true →
      (resStep (resRun c0 es) (.sweep now)).deletions = 1) := by
  obtain ⟨h1, h2, h3⟩ := resInv_run c0 es
  set s := resRun c0 es with hs
  refine ⟨?_, ?_, ?_⟩
  · cases ha : s.allocated
    · exact (h1 ha).2 ▸ Nat.zero_le 1
    · have := h2 ha
      omega
  · intro ha hi
    have := h2 ha
    have := h3 ha hi
    simp_all
  · intro now hnow ha
    have h2' := h2 ha
    simp only [resStep]
    cases hi : s.inStore
    · have hd := h3 ha hi
      simp [hi, hd] at h2' ⊢
      omega
    · simp [hi, hnow, ha]
      cases hd : s.dirExists <;> simp_all

/-- C1 witness: a run in which the job is allocated, completes, and is
downloaded; the record is gone and exactly one effective deletion
happened. -/
theorem C1_witness :
    (resRun 0 [ResEv.alloc, ResEv.finishOk, ResEv.dlStart, ResEv.dlFinish]).allocated = true ∧
    (resRun 0 [ResEv.alloc, ResEv.finishOk, ResEv.dlStart, ResEv.dlFinish]).inStore = false ∧
    (resRun 0 [ResEv.alloc, ResEv.finishOk, ResEv.dlStart, ResEv.dlFinish]).deletions = 1 ∧
    (resRun 0 [ResEv.alloc, ResEv.finishOk, ResEv.dlStart, ResEv.dlFinish]).deletions ≤ 1 :=
  ⟨rfl, rfl,
    (C1_output_dir_deleted_exactly_once 0
      [ResEv.alloc, ResEv.finishOk, ResEv.dlStart, ResEv.dlFinish]).2.1 rfl rfl,
    (C1_output_dir_deleted_exactly_once 0
      [ResEv.alloc, ResEv.finishOk, ResEv.dlStart, ResEv.dlFinish]).1⟩

/-- C9: over every interleaving of acquisitions and releases, the number of
tasks simultaneously holding a slot of a Concurrency Gate never exceeds the
gate's configured slot count; the metadata gate defaults to 2 slots and the
conversion gate to 1. -/
theorem C9_gate_never_exceeds_slots :
    (∀ (slots : Nat) (es : List GateEv), (gateRun slots es).holders ≤ slots) ∧
    MAX_METADATA_CONCURRENCY = 2 ∧ MAX_CONVERSION_CONCURRENCY = 1 := by
  refine ⟨fun slots es => ?_, rfl, rfl⟩
  have := gate_balance slots es
  omega

/-- C2 counterexample: the claim as stated is false.  When the tool exits 0
but produces no output file, `run_conversion` has already written the
metadata fields (lines 338-347) before it discovers the missing file and
fails (lines 354-357): the resulting job is Failed with `error` populated
while the result fields title/artist/duration are populated too. -/
theorem C2_counterexample :
    let r := (run_conversion (fun _ => ParseOutcome.notJson) job0 "/d" (SupOutcome.ok 0 "" "") fsEmpty).1
    r.status = .failed ∧ r.error = some "No output file produced" ∧
    r.title = some "Unknown" ∧ r.artist = some "Unknown" ∧ r.duration = some 0 := by
  exact ⟨rfl, rfl, rfl, rfl, rfl⟩

/-- C2 (amended): for a freshly created job record, at most one of
{`file_size` populated, `error` populated} ever holds, and once the runner
leaves the job in a terminal status exactly one of them is populated:
Completed ⟹ output path and file size populated and no error; Failed ⟹
error populated and no file size.  Neither the metadata fields nor
`output_path` are part of the exclusivity: title/attribution/duration are
populated together with `error` in the no-output branch, and `output_path`
(set at line 359) is populated together with `error` when the Expiry
Sweeper removes the directory between the output-location check and the
`os.path.getsize` call (line 360), whose exception the generic handler
turns into a Failed record. -/
theorem C2_result_error_exclusive (parseJson : String → ParseOutcome) (job : Job)
    (tmpdir : String) (sup : SupOutcome) (fs : Fs)
    (he : job.error = none) (hp : job.output_path = none) (hs : job.file_size = none) :
    let r := (run_conversion parseJson job tmpdir sup fs).1
    (r.status = .completed ∨ r.status = .failed) ∧
    ¬(r.file_size.isSome ∧ r.error.isSome) ∧
    (r.status = .completed → r.output_path.isSome ∧ r.file_size.isSome ∧ r.error = none) ∧
    (r.status = .failed → r.error.isSome ∧ r.file_size = none) := by
  cases sup with
  | timedOut => simp [run_conversion, he, hp, hs]
  | ok rc stdout stderr =>
    by_cases hrc : rc ≠ 0
    · simp [run_conversion, hrc, he, hp, hs]
    · cases hpj : parseJson (lastStdoutLine stdout) <;>
        cases hf : findOutput fs <;>
        cases hg : fs.getsizeError <;>
        simp [run_conversion, finishConversion, hrc, hpj, hf, hg, he, hp, hs]

/-- C2 witness: the getsize-race instance — the sweeper empties the
directory after the output file was located, so the fresh job ends Failed
with `output_path` populated, `error` populated and no `file_size`, all
consistent with the amended exclusivity. -/
theorem C2_witness :
    ((run_conversion (fun _ => ParseOutcome.notJson) job0 "/d" (SupOutcome.ok 0 "" "")
        fsVanished).1.status = .failed) ∧
    ((run_conversion (fun _ => ParseOutcome.notJson) job0 "/d" (SupOutcome.ok 0 "" "")
        fsVanished).1.output_path = some "/d/audio.mp3") ∧
    ((run_conversion (fun _ => ParseOutcome.notJson) job0 "/d" (SupOutcome.ok 0 "" "")
        fsVanished).1.error = some "No such file or directory: /d/audio.mp3") ∧
    (let r := (run_conversion (fun _ => ParseOutcome.notJson) job0 "/d" (SupOutcome.ok 0 "" "")
        fsVanished).1
     (r.status = .completed ∨ r.status = .failed) ∧
     ¬(r.file_size.isSome ∧ r.error.isSome) ∧
     (r.status = .completed → r.output_path.isSome ∧ r.file_size.isSome ∧ r.error = none) ∧
     (r.status = .failed → r.error.isSome ∧ r.file_size = none)) :=
  ⟨rfl, rfl, rfl,
    C2_result_error_exclusive (fun _ => ParseOutcome.notJson) job0 "/d"
      (SupOutcome.ok 0 "" "") fsVanished rfl rfl rfl⟩

/-- C3: download is single-use.  After a download of a Completed job
succeeds and its stream's `finally` block runs (removing the record), every
later status or download request for the same id reports 404 Not Found. -/
theorem C3_download_single_use (store : Store) (jobId : String)
    (fileExists : String → Bool)
    (_hok : ∃ ok, download_job store jobId fileExists = some (.ok ok)) :
    get_job_status (iter_file_cleanup store jobId) jobId =
      .error ⟨404, "Job not found"⟩ ∧
    download_job (iter_file_cleanup store jobId) jobId fileExists =
      some (.error ⟨404, "Job not found"⟩) := by
  constructor
  · simp [get_job_status, iter_file_cleanup, lookup_popJob]
  · simp [download_job, iter_file_cleanup, lookup_popJob]

/-- C3 witness: a concrete completed job is downloadable once; after the
stream's cleanup both endpoints report 404 for its id. -/
theorem C3_witness :
    (∃ ok, download_job [("j1", doneJob)] "j1" (fun _ => true) = some (.ok ok)) ∧
    get_job_status (iter_file_cleanup [("j1", doneJob)] "j1") "j1" =
      .error ⟨404, "Job not found"⟩ ∧
    download_job (iter_file_cleanup [("j1", doneJob)] "j1") "j1" (fun _ => true) =
      some (.error ⟨404, "Job not found"⟩) :=
  ⟨⟨_, rfl⟩, C3_download_single_use [("j1", doneJob)] "j1" (fun _ => true) ⟨_, rfl⟩⟩

/-- C4: when the wall-clock timeout expires before the external process
finishes, the supervisor kills the process (and, in line-streaming mode as
used for conversions, its background readers are cancelled) and reports
`TimedOut`; the job then transitions to Failed with the timeout diagnostic,
the conversion-gate slot is released by the `async with` block, and the
resulting status is terminal — the job is never retried. -/
theorem C4_timeout_kills_and_fails (beh : ProcBehavior) (timeout : Nat)
    (parseJson : String → ParseOutcome) (job : Job) (tmpdir : String) (fs : Fs)
    (h : timeout < beh.duration) :
    (run_subprocess beh timeout true).outcome = .timedOut ∧
    (run_subprocess beh timeout true).processKilled = true ∧
    (run_subprocess beh timeout true).readersCancelled = true ∧
    (run_conversion parseJson job tmpdir (run_subprocess beh timeout true).outcome fs).1.status
      = .failed ∧
    (run_conversion parseJson job tmpdir (run_subprocess beh timeout true).outcome fs).1.error
      = some "Conversion timed out" ∧
    (run_conversion parseJson job tmpdir (run_subprocess beh timeout true).outcome fs).2
      = true ∧
    ((run_conversion parseJson job tmpdir (run_subprocess beh timeout true).outcome
        fs).1.status).isTerminal = true := by
  have hn : ¬(beh.duration ≤ timeout) := by omega
  simp [run_subprocess, hn, run_conversion, JobStatus.isTerminal]

/-- C4 witness: a process that would take 10 time units against a 5-unit
deadline. -/
theorem C4_witness :
    (run_subprocess ⟨10, 0, "", ""⟩ 5 true).outcome = .timedOut ∧
    (run_subprocess ⟨10, 0, "", ""⟩ 5 true).processKilled = true ∧
    (run_subprocess ⟨10, 0, "", ""⟩ 5 true).readersCancelled = true ∧
    (run_conversion (fun _ => ParseOutcome.notJson) job0 "/d"
      (run_subprocess ⟨10, 0, "", ""⟩ 5 true).outcome fsEmpty).1.status = .failed ∧
    (run_conversion (fun _ => ParseOutcome.notJson) job0 "/d"
      (run_subprocess ⟨10, 0, "", ""⟩ 5 true).outcome fsEmpty).1.error
      = some "Conversion timed out" ∧
    (run_conversion (fun _ => ParseOutcome.notJson) job0 "/d"
      (run_subprocess ⟨10, 0, "", ""⟩ 5 true).outcome fsEmpty).2 = true ∧
    ((run_conversion (fun _ => ParseOutcome.notJson) job0 "/d"
      (run_subprocess ⟨10, 0, "", ""⟩ 5 true).outcome fsEmpty).1.status).isTerminal = true :=
  C4_timeout_kills_and_fails ⟨10, 0, "", ""⟩ 5 (fun _ => ParseOutcome.notJson) job0 "/d" fsEmpty
    (by decide)

set_option maxRecDepth 8192 in
/-- C5 counterexample: the claim as stated is false — the diagnostic does
not carry the *last* segment of the captured stderr.  The code truncates
with `stderr_text[:200]` (line 335), keeping the first 200 characters: for a
stderr of 200 `a`s followed by `Z`, the diagnostic contains no `Z` at all,
so it carries no trailing segment of the stderr. -/
theorem C5_counterexample :
    (run_conversion (fun _ => ParseOutcome.notJson) job0 "/d" (SupOutcome.ok 1 "" stderrLong) fsEmpty).1.error
      = some ("Conversion failed: " ++ String.mk (List.replicate 200 'a')) ∧
    stderrLong.data.contains 'Z' = true ∧
    ((((run_conversion (fun _ => ParseOutcome.notJson) job0 "/d" (SupOutcome.ok 1 "" stderrLong)
        fsEmpty).1.error).getD "").data).contains 'Z' = false := by
  refine ⟨by decide, by decide, by decide⟩

/-- C5 (amended): whenever the external process exits with a non-zero
status, the job transitions to Failed with a diagnostic carrying the *first*
segment of the captured stderr, truncated to 200 characters. -/
theorem C5_nonzero_exit_truncated_stderr (parseJson : String → ParseOutcome)
    (job : Job) (tmpdir : String) (rc : Int) (stdout stderr : String) (fs : Fs)
    (h : rc ≠ 0) :
    (run_conversion parseJson job tmpdir (.ok rc stdout stderr) fs).1.status = .failed ∧
    (run_conversion parseJson job tmpdir (.ok rc stdout stderr) fs).1.error
      = some ("Conversion failed: " ++ stderr.take 200) := by
  simp [run_conversion, h]

/-- C5 witness: exit status 1 with stderr `"boom"`. -/
theorem C5_witness :
    (run_conversion (fun _ => ParseOutcome.notJson) job0 "/d" (.ok 1 "" "boom") fsEmpty).1.status
      = .failed ∧
    (run_conversion (fun _ => ParseOutcome.notJson) job0 "/d" (.ok 1 "" "boom") fsEmpty).1.error
      = some ("Conversion failed: " ++ ("boom").take 200) :=
  C5_nonzero_exit_truncated_stderr (fun _ => ParseOutcome.notJson) job0 "/d" 1 "" "boom" fsEmpty
    (by decide)

/-- C6: evaluation at the failing input.  The claim — on exit status 0 a
metadata-parse failure never fails the job, placeholders being substituted
instead — is the code's own intent (the narrow
`except (json.JSONDecodeError, IndexError)` at line 344 exists precisely to
substitute placeholder values, and it works for a line that is not JSON at
all, as the last conjunct shows), but a last stdout line that is valid JSON
without being an object — e.g. `null` — defeats it: `json.loads` succeeds,
then `info.get` at line 341 raises `AttributeError`, which escapes the
narrow handler into the generic `except Exception` (lines 365-368), so the
exit-0 conversion with its output file present ends Failed with the
exception text and no placeholder metadata. -/
theorem C6_nonobject_json_fails_job :
    ((run_conversion (fun _ => ParseOutcome.nonObject "NoneType object has no attribute get")
        job0 "/d" (SupOutcome.ok 0 "null" "") fsWithAudio).1.status = .failed) ∧
    ((run_conversion (fun _ => ParseOutcome.nonObject "NoneType object has no attribute get")
        job0 "/d" (SupOutcome.ok 0 "null" "") fsWithAudio).1.error
      = some "NoneType object has no attribute get") ∧
    ((run_conversion (fun _ => ParseOutcome.nonObject "NoneType object has no attribute get")
        job0 "/d" (SupOutcome.ok 0 "null" "") fsWithAudio).1.title = none) ∧
    ((run_conversion (fun _ => ParseOutcome.nonObject "NoneType object has no attribute get")
        job0 "/d" (SupOutcome.ok 0 "null" "") fsWithAudio).1.output_path = none) ∧
    ((run_conversion (fun _ => ParseOutcome.notJson)
        job0 "/d" (SupOutcome.ok 0 "not json" "") fsWithAudio).1.status = .completed) ∧
    ((run_conversion (fun _ => ParseOutcome.notJson)
        job0 "/d" (SupOutcome.ok 0 "not json" "") fsWithAudio).1.title = some "Unknown") :=
  ⟨rfl, rfl, rfl, rfl, rfl, rfl⟩

/-- C7: a submission whose source reference does not match the accepted URL
shape is rejected synchronously with 400 Invalid YouTube URL; the store is
returned unchanged — no job record is created and not even the eager cleanup
pass runs. -/
theorem C7_invalid_url_rejected (store : Store) (newId : String) (now : Nat)
    (url quality : String) (h : is_valid_youtube_url url = false) :
    create_job store newId now url quality
      = (store, .error ⟨400, "Invalid YouTube URL"⟩) := by
  simp [create_job, h]

/-- C7 witness: a non-video-hosting URL is rejected and the store stays
empty. -/
theorem C7_witness :
    is_valid_youtube_url "https://example.com/watch?v=abc" = false ∧
    create_job [] "j1" 0 "https://example.com/watch?v=abc" "192"
      = ([], .error ⟨400, "Invalid YouTube URL"⟩) :=
  ⟨rfl, C7_invalid_url_rejected [] "j1" 0 "https://example.com/watch?v=abc" "192" rfl⟩

/-- C8: a submission with a quality selector outside {128, 192, 256, 320} is
not rejected — the job is created with the documented default quality
`"128"` and the submission succeeds. -/
theorem C8_quality_coerced_to_default (store : Store) (newId : String) (now : Nat)
    (url quality : String)
    (hu : is_valid_youtube_url url = true)
    (hq : valid_qualities.contains quality = false) :
    (create_job store newId now url quality).2 = .ok newId ∧
    List.lookup newId (create_job store newId now url quality).1 =
      some { id := newId, url := url, quality := "128", status := .pending
             progress := "Queued", created_at := now
             title := none, artist := none, duration := none
             output_path := none, output_dir := none, file_size := none
             error := none } := by
  unfold create_job
  rw [hu, hq]
  simp [List.lookup]

/-- C8 witness: quality `"999"` on a valid URL creates a Pending job with
quality `"128"`. -/
theorem C8_witness :
    (create_job [] "j1" 0 "https://www.youtube.com/watch?v=dQw4w9WgXcQ" "999").2
      = .ok "j1" ∧
    List.lookup "j1"
        (create_job [] "j1" 0 "https://www.youtube.com/watch?v=dQw4w9WgXcQ" "999").1 =
      some { id := "j1", url := "https://www.youtube.com/watch?v=dQw4w9WgXcQ"
             quality := "128", status := .pending, progress := "Queued", created_at := 0
             title := none, artist := none, duration := none
             output_path := none, output_dir := none, file_size := none
             error := none } :=
  C8_quality_coerced_to_default [] "j1" 0
    "https://www.youtube.com/watch?v=dQw4w9WgXcQ" "999" rfl rfl

/-- C10: evaluation at the failing input.  The claim — every Completed job
has title, artist, duration, output path and file size populated — is the
code's own intent (the `.get(key, default)` calls supply `'Unknown'`/`0`
precisely so the download headers never see a missing value), but a JSON
metadata line whose `title` key is present with value `null` defeats it:
Python `dict.get` returns the stored `None`, the job completes with
`title = None`, and the download endpoint then applies `sanitize_filename`
to `None` and raises (modelled by `download_job` returning `none`). -/
theorem C10_completed_job_null_title :
    (run_conversion (fun _ => ParseOutcome.obj infoNullTitle) job0 "/d"
        (SupOutcome.ok 0 "\x7b\"title\": null\x7d" "") fsWithAudio).1.status = .completed ∧
    (run_conversion (fun _ => ParseOutcome.obj infoNullTitle) job0 "/d"
        (SupOutcome.ok 0 "\x7b\"title\": null\x7d" "") fsWithAudio).1.title = none ∧
    (run_conversion (fun _ => ParseOutcome.obj infoNullTitle) job0 "/d"
        (SupOutcome.ok 0 "\x7b\"title\": null\x7d" "") fsWithAudio).1.artist
      = some "My Artist" ∧
    (run_conversion (fun _ => ParseOutcome.obj infoNullTitle) job0 "/d"
        (SupOutcome.ok 0 "\x7b\"title\": null\x7d" "") fsWithAudio).1.duration = some 212 ∧
    (run_conversion (fun _ => ParseOutcome.obj infoNullTitle) job0 "/d"
        (SupOutcome.ok 0 "\x7b\"title\": null\x7d" "") fsWithAudio).1.output_path
      = some "/d/audio.mp3" ∧
    (run_conversion (fun _ => ParseOutcome.obj infoNullTitle) job0 "/d"
        (SupOutcome.ok 0 "\x7b\"title\": null\x7d" "") fsWithAudio).1.file_size = some 3 ∧
    download_job
        [("j1", (run_conversion (fun _ => ParseOutcome.obj infoNullTitle) job0 "/d"
          (SupOutcome.ok 0 "\x7b\"title\": null\x7d" "") fsWithAudio).1)] "j1" (fun _ => true)
      = none := by
  refine ⟨rfl, rfl, rfl, rfl, rfl, rfl, ?_⟩
  rfl

end Iqra
